import Mathlib

/-!
Shallow embedding of the steady-vitality authentication core:
`src/utils/password.ts` (PasswordService), `src/utils/jwt.ts` (JWTService),
`src/database/entities/User.ts`, `src/database/entities/Session.ts`,
`src/database/entities/CoachTraineeAssignment.ts`, and the
`AuthService` orchestrator.  Times are epoch milliseconds (`Int`);
bcrypt is modelled symbolically; database state is explicit lists.
-/

/-- Symbolic model of bcrypt values: a stored string is either plaintext or
the bcrypt hash of another value.  `bcrypt.hash` is injective and
distinguishable from its input, which is all the code relies on. -/
inductive BVal where
  | plain (s : String)
  | hashed (v : BVal)
deriving DecidableEq, Repr

/-- `bcrypt.hash(password, rounds)` — the rounds only affect cost. -/
def bcryptHash (v : BVal) : BVal := BVal.hashed v

/-- `bcrypt.compare(plainPassword, hash)`: true iff `hash` is the bcrypt
hash of exactly that plaintext. -/
def bcryptCompare (p : String) (h : BVal) : Bool :=
  h == BVal.hashed (BVal.plain p)

/-- JavaScript truthiness of the stored string: empty plaintext is falsy;
a bcrypt hash string is never empty, hence truthy. -/
def BVal.isTruthy : BVal → Bool
  | BVal.plain s => s ≠ ""
  | BVal.hashed _ => true

/-- ASCII lower-casing, as `String.prototype.toLowerCase` acts on the
ASCII inputs this code handles. -/
def jsToLowerChar (c : Char) : Char :=
  if 'A' ≤ c ∧ c ≤ 'Z' then Char.ofNat (c.toNat + 32) else c

def jsToLower (s : String) : String :=
  String.mk (s.toList.map jsToLowerChar)

def jsIsWhitespace (c : Char) : Bool :=
  c == ' ' || c == '\t' || c == '\n' || c == '\r'

/-- `String.prototype.trim`. -/
def jsTrim (s : String) : String :=
  String.mk (((s.toList.dropWhile jsIsWhitespace).reverse.dropWhile
    jsIsWhitespace).reverse)

/-- `email.toLowerCase().trim()` as used throughout the auth service. -/
def normalizeEmail (s : String) : String := jsTrim (jsToLower s)

/-- Membership of a list as a contiguous substring (for the regex
`/123456|abcdef|qwerty/` test). -/
def containsSeq (needle : List Char) (hay : List Char) : Bool :=
  match hay with
  | [] => needle.isEmpty
  | _ :: t => needle.isPrefixOf hay || containsSeq needle t

namespace PasswordService

def isUppercaseChar (c : Char) : Bool := 'A' ≤ c && c ≤ 'Z'
def isLowercaseChar (c : Char) : Bool := 'a' ≤ c && c ≤ 'z'
def isDigitChar (c : Char) : Bool := '0' ≤ c && c ≤ '9'

/-- The character class of the regex
`/[!@#$%^&*()_+\-=\[\]{};':"\\|,.<>\/?]/`. -/
def specialChars : List Char :=
  ['!', '@', '#', '$', '%', '^', '&', '*', '(', ')', '_', '+', '-', '=',
   '[', ']', '{', '}', ';', '\'', ':', '"', '\\', '|', ',', '.', '<', '>',
   '/', '?']

def isSpecialChar (c : Char) : Bool := specialChars.contains c

/-- The fixed deny-list of common weak passwords. -/
def commonPasswords : List String :=
  ["password", "password123", "123456", "123456789", "qwerty",
   "abc123", "password1", "admin", "letmein", "welcome"]

def hasSequential (s : String) : Bool :=
  containsSeq "123456".toList (jsToLower s).toList ||
  containsSeq "abcdef".toList (jsToLower s).toList ||
  containsSeq "qwerty".toList (jsToLower s).toList

structure PasswordValidation where
  isValid : Bool
  errors : List String
deriving DecidableEq, Repr

def msgRequired : String := "Password is required"
def msgTooShort : String := "Password must be at least 8 characters long"
def msgTooLong : String := "Password must be no more than 128 characters long"
def msgNoUpper : String := "Password must contain at least one uppercase letter"
def msgNoLower : String := "Password must contain at least one lowercase letter"
def msgNoDigit : String := "Password must contain at least one number"
def msgNoSpecial : String := "Password must contain at least one special character"
def msgCommon : String := "Password is too common. Please choose a stronger password"
def msgSequential : String := "Password should not contain sequential characters"

/-- `PasswordService.validatePassword` from `src/utils/password.ts`. -/
def validatePassword (password : String) : PasswordValidation :=
  if password = "" then
    { isValid := false, errors := [msgRequired] }
  else
    let errors : List String :=
      (if password.length < 8 then [msgTooShort] else []) ++
      (if password.length > 128 then [msgTooLong] else []) ++
      (if !(password.toList.any isUppercaseChar) then [msgNoUpper] else []) ++
      (if !(password.toList.any isLowercaseChar) then [msgNoLower] else []) ++
      (if !(password.toList.any isDigitChar) then [msgNoDigit] else []) ++
      (if !(password.toList.any isSpecialChar) then [msgNoSpecial] else []) ++
      (if commonPasswords.contains (jsToLower password) then [msgCommon] else []) ++
      (if hasSequential password then [msgSequential] else [])
    { isValid := errors.isEmpty, errors := errors }

end PasswordService

namespace PasswordService

def lowercaseChars : List Char := "abcdefghijklmnopqrstuvwxyz".toList
def uppercaseChars : List Char := "ABCDEFGHIJKLMNOPQRSTUVWXYZ".toList
def numberChars : List Char := "0123456789".toList
def symbolChars : List Char := "!@#$%^&*()_+-=[]{}|;:,.<>?".toList
def allChars : List Char :=
  lowercaseChars ++ uppercaseChars ++ numberChars ++ symbolChars

/-- `PasswordService.generateRandomPassword` from `src/utils/password.ts`.
`pick k` models the k-th `Math.floor(Math.random() * len)` draw (reduced
mod the class size), and `shuffle` models the outcome of
`.sort(() => Math.random() - 0.5)`, which is some permutation of its
input list of characters. -/
def generateRandomPassword (length : Nat) (pick : Nat → Nat)
    (shuffle : List Char → List Char) : String :=
  let base : List Char :=
    [lowercaseChars.getD (pick 0 % lowercaseChars.length) 'a',
     uppercaseChars.getD (pick 1 % uppercaseChars.length) 'A',
     numberChars.getD (pick 2 % numberChars.length) '0',
     symbolChars.getD (pick 3 % symbolChars.length) '!']
  let rest : List Char := (List.range (length - 4)).map
    (fun i => allChars.getD (pick (4 + i) % allChars.length) 'a')
  String.mk (shuffle (base ++ rest))

end PasswordService

/-- `Session` entity (`src/database/entities/Session.ts`), restricted to
the persisted fields the session-lifecycle logic reads or writes. -/
structure Session where
  id : String
  userId : String
  token : String
  refreshToken : Option String
  expiresAt : Int
  refreshTokenExpiresAt : Option Int
  isActive : Bool
  lastAccessedAt : Option Int
  revokedAt : Option Int
  revokedBy : Option String
  revokedReason : Option String
deriving DecidableEq, Repr

namespace Session

/-- `isExpired(): new Date() > this.expiresAt`. -/
def isExpired (now : Int) (s : Session) : Bool := now > s.expiresAt

/-- `isRefreshTokenExpired()`: when `refreshTokenExpiresAt` is unset the
ternary falls to `true`. -/
def isRefreshTokenExpired (now : Int) (s : Session) : Bool :=
  match s.refreshTokenExpiresAt with
  | some t => now > t
  | none => true

/-- `isValid(): this.isActive && !this.isExpired() && !this.revokedAt`. -/
def isValid (now : Int) (s : Session) : Bool :=
  s.isActive && !(isExpired now s) && s.revokedAt.isNone

/-- `canRefresh(): this.isActive && !this.isRefreshTokenExpired() && !this.revokedAt`. -/
def canRefresh (now : Int) (s : Session) : Bool :=
  s.isActive && !(isRefreshTokenExpired now s) && s.revokedAt.isNone

/-- `revoke(reason?, revokedBy?)`. -/
def revoke (now : Int) (reason actor : Option String) (s : Session) : Session :=
  { s with isActive := false, revokedAt := some now,
           revokedBy := some (actor.getD "system"),
           revokedReason := some (reason.getD "Session revoked") }

end Session

/-- Payload of a refresh JWT together with its verification-relevant
status: `sigOk` models whether `jwt.verify` accepts the signature and
`expired` whether the token is past its `exp` claim. -/
structure RefreshTok where
  userId : String
  sessionId : String
  typ : String
  sigOk : Bool
  expired : Bool
deriving DecidableEq, Repr

namespace JWTService

def errInvalidRefresh : String := "Invalid refresh token"
def errRefreshExpired : String := "Refresh token expired"
def errInvalidPayload : String := "Invalid refresh token payload"

/-- `JWTService.verifyRefreshToken` (`src/utils/jwt.ts`): `jwt.verify`
first rejects bad signatures (JsonWebTokenError) and expired tokens
(TokenExpiredError); then the discriminator and the presence of
`userId`/`sessionId` are checked (empty string models a missing/falsy
claim). -/
def verifyRefreshToken (tok : RefreshTok) : Except String (String × String) :=
  if !tok.sigOk then .error errInvalidRefresh
  else if tok.expired then .error errRefreshExpired
  else if tok.typ ≠ "refresh" then .error errInvalidRefresh
  else if tok.userId = "" || tok.sessionId = "" then .error errInvalidPayload
  else .ok (tok.userId, tok.sessionId)

/-- `JWTService.generateRefreshToken`: freshly signed, not yet expired,
carrying the `"refresh"` discriminator. -/
def generateRefreshToken (userId sessionId : String) : RefreshTok :=
  { userId, sessionId, typ := "refresh", sigOk := true, expired := false }

/-- JavaScript `parseInt` in radix 10: skip leading whitespace, optional
sign, then the maximal run of leading decimal digits; `none` models
`NaN`. -/
def parseIntJS (s : String) : Option Int :=
  let l := s.toList.dropWhile jsIsWhitespace
  let rest : Int × List Char :=
    match l with
    | '-' :: r => (-1, r)
    | '+' :: r => (1, r)
    | _ => (1, l)
  let ds := rest.2.takeWhile PasswordService.isDigitChar
  if ds.isEmpty then none
  else some (rest.1 * (ds.foldl (fun a c => a * 10 + ((c.toNat : Int) - 48)) 0))

def strEndsWithChar (s : String) (c : Char) : Bool :=
  s.toList.getLast? == some c

def strDropLast (s : String) : String := String.mk s.toList.dropLast

/-- `JWTService.getAccessTokenExpirationTime` applied to the configured
expiry string (`config.jwt.expiresIn` is always a string in
`src/config/env.ts`, so the non-string `return 3600` branch is
unreachable); `none` models the `NaN` that `parseInt` yields on an
unparseable prefix. -/
def getAccessTokenExpirationTime (expiresIn : String) : Option Int :=
  if strEndsWithChar expiresIn 'h' then
    (parseIntJS (strDropLast expiresIn)).map (· * 3600)
  else if strEndsWithChar expiresIn 'm' then
    (parseIntJS (strDropLast expiresIn)).map (· * 60)
  else if strEndsWithChar expiresIn 'd' then
    (parseIntJS (strDropLast expiresIn)).map (· * 86400)
  else if strEndsWithChar expiresIn 's' then
    parseIntJS (strDropLast expiresIn)
  else parseIntJS expiresIn

end JWTService

/-- `AssignmentStatus` from
`src/database/entities/CoachTraineeAssignment.ts`. -/
inductive AssignmentStatus where
  | active
  | paused
  | completed
  | terminated
deriving DecidableEq, Repr

/-- `CoachTraineeAssignment` entity, restricted to the fields the status
state machine reads or writes (the unused `pausedBy` argument of
`pause` is dropped). -/
structure CoachTraineeAssignment where
  id : String
  coachId : String
  traineeId : String
  status : AssignmentStatus
  assignedAt : Int
  endedAt : Option Int
  pausedAt : Option Int
  resumedAt : Option Int
  isActive : Bool
  notes : Option String
  terminationReason : Option String
  terminatedBy : Option String
  totalSessions : Nat
  completedSessions : Nat
deriving DecidableEq, Repr

namespace CoachTraineeAssignment

/-- The `[TAG] reason` note appending used by all four transitions (a
no-op when no reason is supplied). -/
def appendNote (tag : String) (reason : Option String)
    (notes : Option String) : Option String :=
  match reason with
  | none => notes
  | some r =>
    match notes with
    | some n => some (n ++ "\n[" ++ tag ++ "] " ++ r)
    | none => some ("[" ++ tag ++ "] " ++ r)

/-- `pause(reason?)`. -/
def pause (now : Int) (reason : Option String) (a : CoachTraineeAssignment) :
    Except String CoachTraineeAssignment :=
  if a.status ≠ AssignmentStatus.active then
    .error "Can only pause active assignments"
  else
    .ok { a with status := AssignmentStatus.paused, pausedAt := some now,
                 isActive := false, notes := appendNote "PAUSED" reason a.notes }

/-- `resume(reason?)`. -/
def resume (now : Int) (reason : Option String) (a : CoachTraineeAssignment) :
    Except String CoachTraineeAssignment :=
  if a.status ≠ AssignmentStatus.paused then
    .error "Can only resume paused assignments"
  else
    .ok { a with status := AssignmentStatus.active, resumedAt := some now,
                 isActive := true, notes := appendNote "RESUMED" reason a.notes }

/-- `complete(reason?, completedBy?)`: `terminatedBy` is assigned
unconditionally, `terminationReason` and the note only when a reason is
given. -/
def complete (now : Int) (reason completedBy : Option String)
    (a : CoachTraineeAssignment) : Except String CoachTraineeAssignment :=
  if a.status ≠ AssignmentStatus.active ∧ a.status ≠ AssignmentStatus.paused then
    .error "Can only complete active or paused assignments"
  else
    .ok { a with status := AssignmentStatus.completed, endedAt := some now,
                 isActive := false, terminatedBy := completedBy,
                 terminationReason :=
                   match reason with
                   | some r => some r
                   | none => a.terminationReason,
                 notes := appendNote "COMPLETED" reason a.notes }

/-- `terminate(reason, terminatedBy?)`: the reason is mandatory, so the
reason field and the note are always written. -/
def terminate (now : Int) (reason : String) (actor : Option String)
    (a : CoachTraineeAssignment) : Except String CoachTraineeAssignment :=
  if a.status = AssignmentStatus.terminated then
    .error "Assignment is already terminated"
  else
    .ok { a with status := AssignmentStatus.terminated, endedAt := some now,
                 isActive := false, terminationReason := some reason,
                 terminatedBy := actor,
                 notes := appendNote "TERMINATED" (some reason) a.notes }

/-- `get isCompleted()`. -/
def isCompleted (a : CoachTraineeAssignment) : Bool :=
  a.status = AssignmentStatus.completed

end CoachTraineeAssignment

/-- `UserRole` from `src/database/entities/User.ts`. -/
inductive UserRole where
  | admin
  | coach
  | client
deriving DecidableEq, Repr

/-- `User` entity, restricted to the persisted fields the auth flows read
or write. -/
structure User where
  id : String
  email : String
  username : String
  password : BVal
  firstName : String
  lastName : String
  role : UserRole
  isActive : Bool
  isEmailVerified : Bool
  emailVerificationToken : Option BVal
  emailVerificationExpires : Option Int
  passwordResetToken : Option BVal
  passwordResetExpires : Option Int
  lastLoginAt : Option Int
deriving DecidableEq, Repr

namespace User

/-- `validatePassword(plainPassword)`: `bcrypt.compare` against the
stored field. -/
def validatePassword (plainPassword : String) (u : User) : Bool :=
  bcryptCompare plainPassword u.password

/-- `@BeforeInsert @BeforeUpdate hashPassword()`: rehashes whenever the
stored field is truthy — including when it already holds a hash. -/
def hashPassword (u : User) : User :=
  if u.password.isTruthy then { u with password := bcryptHash u.password } else u

/-- `@BeforeInsert @BeforeUpdate normalizeEmail()`. -/
def applyNormalizeEmail (u : User) : User :=
  if u.email ≠ "" then { u with email := normalizeEmail u.email } else u

/-- The entity hooks TypeORM runs before an insert or an update of a
`User` row. -/
def beforeSave (u : User) : User := applyNormalizeEmail (hashPassword u)

end User

/-- The relational store the orchestrator reads and writes: repository
`find`/`findOne` is `List.find?` in insertion order, `save`/`update`
replaces rows in place by primary key. -/
structure DB where
  users : List User
  sessions : List Session
deriving DecidableEq, Repr

/-- The `user` projection returned inside `AuthResponse`. -/
structure UserView where
  id : String
  email : String
  username : String
  firstName : String
  lastName : String
  role : UserRole
  isEmailVerified : Bool
deriving DecidableEq, Repr

/-- Payload of a signed access JWT (`JWTService.generateAccessToken`);
the signature itself is abstracted away. -/
structure AccessTok where
  userId : String
  email : String
  role : UserRole
  sessionId : String
deriving DecidableEq, Repr

/-- The `tokens` object of a successful auth response. -/
structure TokenBundle where
  accessToken : AccessTok
  refreshToken : RefreshTok
  expiresIn : Option Int
deriving DecidableEq, Repr

/-- `AuthResponse` from `src/types/auth.ts`. -/
structure AuthResponse where
  success : Bool
  message : String
  user : Option UserView
  tokens : Option TokenBundle
deriving DecidableEq, Repr

/-- `{ success, message }` results of the password/verification flows. -/
structure SimpleResponse where
  success : Bool
  message : String
deriving DecidableEq, Repr

/-- The fresh random material a single orchestrator call may consume:
generated uuids, the session's opaque tokens, and the raw e-mail
verification token. -/
structure Fresh where
  userId : String
  sessionId : String
  sessionToken : String
  sessionRefreshToken : String
  rawEmailToken : String
deriving DecidableEq, Repr

structure RegisterRequest where
  email : String
  username : String
  password : String
  firstName : String
  lastName : String
deriving DecidableEq, Repr

structure LoginRequest where
  email : String
  password : String
  rememberMe : Bool
deriving DecidableEq, Repr

structure ResetPasswordRequest where
  token : String
  newPassword : String
deriving DecidableEq, Repr

namespace AuthService

/-- `AuthService.createSession` plus the `Session` `@BeforeInsert`
defaults (the ip/user-agent metadata is not modelled). -/
def createSession (u : User) (now : Int) (fr : Fresh)
    (expirationHours : Int := 24) : Session :=
  { id := fr.sessionId, userId := u.id,
    token := fr.sessionToken, refreshToken := some fr.sessionRefreshToken,
    expiresAt := now + expirationHours * 60 * 60 * 1000,
    refreshTokenExpiresAt := some (now + 7 * 24 * 60 * 60 * 1000),
    isActive := true, lastAccessedAt := none, revokedAt := none,
    revokedBy := none, revokedReason := none }

def toUserView (u : User) : UserView :=
  { id := u.id, email := u.email, username := u.username,
    firstName := u.firstName, lastName := u.lastName, role := u.role,
    isEmailVerified := u.isEmailVerified }

/-- `AuthService.generateTokens`; `cfg` is the configured
`config.jwt.expiresIn` string. -/
def generateTokens (u : User) (s : Session) (cfg : String) : TokenBundle :=
  { accessToken :=
      { userId := u.id, email := u.email, role := u.role, sessionId := s.id },
    refreshToken := JWTService.generateRefreshToken u.id s.id,
    expiresIn := JWTService.getAccessTokenExpirationTime cfg }

def invalidCredentials : AuthResponse :=
  { success := false, message := "Invalid email or password",
    user := none, tokens := none }

/-- `AuthService.register`. -/
def register (cfg : String) (data : RegisterRequest) (now : Int) (fr : Fresh)
    (db : DB) : AuthResponse × DB :=
  let e := normalizeEmail data.email
  match db.users.find? (fun u => u.email == e || u.username == data.username) with
  | some existing =>
    ({ success := false,
       message := if existing.email == e then "Email already registered"
                  else "Username already taken",
       user := none, tokens := none }, db)
  | none =>
    let v := PasswordService.validatePassword data.password
    if !v.isValid then
      ({ success := false, message := String.intercalate ", " v.errors,
         user := none, tokens := none }, db)
    else
      let user0 : User :=
        { id := fr.userId, email := e, username := data.username,
          password := BVal.plain data.password,
          firstName := data.firstName, lastName := data.lastName,
          role := UserRole.client, isActive := true, isEmailVerified := false,
          emailVerificationToken := some (bcryptHash (BVal.plain fr.rawEmailToken)),
          emailVerificationExpires := some (now + 86400000),
          passwordResetToken := none, passwordResetExpires := none,
          lastLoginAt := none }
      let savedUser := User.beforeSave user0
      let session := createSession savedUser now fr 24
      let tokens := generateTokens savedUser session cfg
      ({ success := true,
         message := "Registration successful. Please check your email to verify your account.",
         user := some (toUserView savedUser), tokens := some tokens },
       { users := db.users ++ [savedUser], sessions := db.sessions ++ [session] })

/-- `AuthService.login`. -/
def login (cfg : String) (data : LoginRequest) (now : Int) (fr : Fresh)
    (db : DB) : AuthResponse × DB :=
  match db.users.find? (fun u => u.email == normalizeEmail data.email) with
  | none => (invalidCredentials, db)
  | some user =>
    if !user.isActive then (invalidCredentials, db)
    else if !(User.validatePassword data.password user) then
      (invalidCredentials, db)
    else
      let user' := User.beforeSave { user with lastLoginAt := some now }
      let users' := db.users.map (fun x => if x.id == user.id then user' else x)
      let session := createSession user' now fr
        (if data.rememberMe then 7 * 24 else 24)
      let tokens := generateTokens user' session cfg
      ({ success := true, message := "Login successful",
         user := some (toUserView user'), tokens := some tokens },
       { users := users', sessions := db.sessions ++ [session] })

/-- `AuthService.refreshToken`: a throw from
`JWTService.verifyRefreshToken` lands in the surrounding `catch`, which
answers `"Token refresh failed"`; only a missing/inactive user or
session, or a non-refreshable session, produce
`"Invalid or expired refresh token"`. -/
def refreshToken (cfg : String) (tok : RefreshTok) (now : Int)
    (db : DB) : AuthResponse :=
  match JWTService.verifyRefreshToken tok with
  | .error _ =>
    { success := false, message := "Token refresh failed",
      user := none, tokens := none }
  | .ok (userId, sessionId) =>
    let user? := db.users.find? (fun u => u.id == userId && u.isActive)
    let session? := db.sessions.find?
      (fun s => s.id == sessionId && s.userId == userId && s.isActive)
    match user?, session? with
    | some user, some session =>
      if !(Session.canRefresh now session) then
        { success := false, message := "Invalid or expired refresh token",
          user := none, tokens := none }
      else
        { success := true, message := "Token refreshed successfully",
          user := some (toUserView user),
          tokens := some (generateTokens user session cfg) }
    | _, _ =>
      { success := false, message := "Invalid or expired refresh token",
        user := none, tokens := none }

/-- Predicate of the query
`'user.passwordResetExpires > :now'` in `AuthService.resetPassword`. -/
def resetExpiryMatches (now : Int) (u : User) : Bool :=
  match u.passwordResetExpires with
  | some t => t > now
  | none => false

/-- `AuthService.resetPassword`. -/
def resetPassword (data : ResetPasswordRequest) (now : Int) (db : DB) :
    SimpleResponse × DB :=
  let v := PasswordService.validatePassword data.newPassword
  if !v.isValid then
    ({ success := false, message := String.intercalate ", " v.errors }, db)
  else
    match db.users.find? (resetExpiryMatches now) with
    | none => ({ success := false, message := "Invalid or expired reset token" }, db)
    | some user =>
      match user.passwordResetToken with
      | none => ({ success := false, message := "Invalid or expired reset token" }, db)
      | some storedHash =>
        if !(bcryptCompare data.token storedHash) then
          ({ success := false, message := "Invalid or expired reset token" }, db)
        else
          let user' := User.beforeSave
            { user with password := BVal.plain data.newPassword,
                        passwordResetToken := none, passwordResetExpires := none }
          let users' := db.users.map (fun x => if x.id == user.id then user' else x)
          let sessions' := db.sessions.map (fun s =>
            if s.userId == user.id && s.isActive then
              { s with isActive := false, revokedAt := some now,
                       revokedReason := some "Password reset",
                       revokedBy := some "user" }
            else s)
          ({ success := true, message := "Password reset successfully" },
           { users := users', sessions := sessions' })

end AuthService

/-! ## Concrete fixtures used by counterexamples and witnesses -/

/-- A session at the exact millisecond of its expiries. -/
def sessionAtBoundary : Session :=
  { id := "s1", userId := "u1", token := "t1", refreshToken := some "r1",
    expiresAt := 100, refreshTokenExpiresAt := some 100, isActive := true,
    lastAccessedAt := none, revokedAt := none, revokedBy := none,
    revokedReason := none }

def assignmentActive : CoachTraineeAssignment :=
  { id := "a1", coachId := "c1", traineeId := "t1",
    status := AssignmentStatus.active, assignedAt := 0, endedAt := none,
    pausedAt := none, resumedAt := none, isActive := true, notes := none,
    terminationReason := none, terminatedBy := none, totalSessions := 0,
    completedSessions := 0 }

def assignmentPaused : CoachTraineeAssignment :=
  { assignmentActive with status := AssignmentStatus.paused, isActive := false }

def assignmentTerminated : CoachTraineeAssignment :=
  { assignmentActive with status := AssignmentStatus.terminated, isActive := false }

/-- A template user with a standard strong password. -/
def baseUser : User :=
  { id := "u0", email := "u0@example.com", username := "u0",
    password := bcryptHash (BVal.plain "Str0ng!Pass"),
    firstName := "F", lastName := "L", role := UserRole.client,
    isActive := true, isEmailVerified := false,
    emailVerificationToken := none, emailVerificationExpires := none,
    passwordResetToken := none, passwordResetExpires := none,
    lastLoginAt := none }

def dbEmpty : DB := { users := [], sessions := [] }

/-- A refresh token whose signature does not verify. -/
def badSigTok : RefreshTok :=
  { userId := "u1", sessionId := "s1", typ := "refresh", sigOk := false,
    expired := false }

/-- A correctly signed token carrying the wrong discriminator. -/
def wrongTypTok : RefreshTok :=
  { userId := "u1", sessionId := "s1", typ := "access", sigOk := true,
    expired := false }

def refreshUser : User :=
  { baseUser with id := "u1", email := "u1@example.com", username := "u1" }

/-- An active session whose refresh expiry (50) is already in the past at
time 100. -/
def staleSession : Session :=
  { id := "s1", userId := "u1", token := "tk", refreshToken := some "rtk",
    expiresAt := 50, refreshTokenExpiresAt := some 50, isActive := true,
    lastAccessedAt := none, revokedAt := none, revokedBy := none,
    revokedReason := none }

def dbRefresh : DB := { users := [refreshUser], sessions := [staleSession] }

def goodTok : RefreshTok := JWTService.generateRefreshToken "u1" "s1"

def resetUserA : User :=
  { baseUser with
    id := "uA", email := "a@example.com", username := "a",
    passwordResetToken := some (bcryptHash (BVal.plain "tokA")),
    passwordResetExpires := some 100 }

def resetUserB : User :=
  { baseUser with
    id := "uB", email := "b@example.com", username := "b",
    passwordResetToken := some (bcryptHash (BVal.plain "tokB")),
    passwordResetExpires := some 100 }

/-- A state in which two users hold non-expired reset tokens. -/
def dbTwoResets : DB := { users := [resetUserA, resetUserB], sessions := [] }

def resetUserC : User :=
  { baseUser with
    id := "uC", email := "c@example.com", username := "c",
    passwordResetToken := some (bcryptHash (BVal.plain "tokC")),
    passwordResetExpires := some 100 }

def sessionC : Session :=
  { id := "sC", userId := "uC", token := "tC", refreshToken := some "rC",
    expiresAt := 1000, refreshTokenExpiresAt := some 2000, isActive := true,
    lastAccessedAt := none, revokedAt := none, revokedBy := none,
    revokedReason := none }

def dbOneReset : DB := { users := [resetUserC], sessions := [sessionC] }

/-- Collides with the requested username only. -/
def userNameCollider : User :=
  { baseUser with id := "uN", email := "other@example.com", username := "alice" }

/-- Collides with the requested email only. -/
def userEmailCollider : User :=
  { baseUser with id := "uE", email := "alice@example.com", username := "someone" }

def dbCollide : DB := { users := [userNameCollider, userEmailCollider], sessions := [] }

/-- One user colliding on both the email and the username. -/
def userBothCollider : User :=
  { baseUser with id := "uBoth", email := "alice@example.com", username := "alice" }

def dbBoth : DB := { users := [userBothCollider], sessions := [] }

def regReqCollide : RegisterRequest :=
  { email := "alice@example.com", username := "alice",
    password := "Str0ng!Pass", firstName := "A", lastName := "B" }

def fresh0 : Fresh :=
  { userId := "nu", sessionId := "ns", sessionToken := "nt",
    sessionRefreshToken := "nr", rawEmailToken := "ne" }

def fresh1 : Fresh :=
  { userId := "u1", sessionId := "s1", sessionToken := "st1",
    sessionRefreshToken := "sr1", rawEmailToken := "ev1" }

def fresh2 : Fresh :=
  { userId := "u2", sessionId := "s2", sessionToken := "st2",
    sessionRefreshToken := "sr2", rawEmailToken := "ev2" }

def fresh3 : Fresh :=
  { userId := "u3", sessionId := "s3", sessionToken := "st3",
    sessionRefreshToken := "sr3", rawEmailToken := "ev3" }

def regReqAlice : RegisterRequest :=
  { email := "Alice@Example.com", username := "alice",
    password := "Str0ng!Pass", firstName := "Alice", lastName := "L" }

/-- Registration of alice in the empty store. -/
def regStep : AuthResponse × DB :=
  AuthService.register "1h" regReqAlice 0 fresh1 dbEmpty

def loginReqAlice : LoginRequest :=
  { email := "alice@example.com", password := "Str0ng!Pass", rememberMe := false }

/-- First login after registration, with the correct password. -/
def loginStep1 : AuthResponse × DB :=
  AuthService.login "1h" loginReqAlice 10 fresh2 regStep.2

/-- Second login, same correct password, in the state the first login
produced. -/
def loginStep2 : AuthResponse × DB :=
  AuthService.login "1h" loginReqAlice 20 fresh3 loginStep1.2

/-! ## C6 — session validity and refreshability -/

/-- C6 counterexample: at the exact millisecond `now = expiresAt` the code
still reports the session valid (`isExpired` uses strict `>`), so
"valid iff active AND now < expiresAt AND not revoked" is false at this
input. -/
theorem C6_counterexample :
    ¬(Session.isValid 100 sessionAtBoundary = true ↔
      (sessionAtBoundary.isActive = true ∧
       (100 : Int) < sessionAtBoundary.expiresAt ∧
       sessionAtBoundary.revokedAt = none)) := by decide

/-- C6 (amended): a session is valid iff it is active, `now ≤ expiresAt`
(the code expires strictly after the stamp) and it is not revoked; it can
refresh iff it is active, its refresh expiry is set with
`now ≤ refreshTokenExpiresAt`, and it is not revoked. -/
theorem C6_session_validity (s : Session) (now : Int) :
    (Session.isValid now s = true ↔
      (s.isActive = true ∧ now ≤ s.expiresAt ∧ s.revokedAt = none)) ∧
    (Session.canRefresh now s = true ↔
      (s.isActive = true ∧
       (∃ t, s.refreshTokenExpiresAt = some t ∧ now ≤ t) ∧
       s.revokedAt = none)) := by
  constructor
  · simp [Session.isValid, Session.isExpired, Option.isNone_iff_eq_none,
      not_lt, and_assoc]
  · cases h : s.refreshTokenExpiresAt with
    | none =>
      simp [Session.canRefresh, Session.isRefreshTokenExpired, h]
    | some t =>
      simp [Session.canRefresh, Session.isRefreshTokenExpired, h,
        Option.isNone_iff_eq_none, not_lt, and_assoc]

/-! ## C7 — assignment status state machine -/

/-- C7: `pause` succeeds exactly from `active`, `resume` exactly from
`paused`, `complete` exactly from `active` or `paused`, `terminate`
exactly when not already `terminated`; every illegal transition returns
the domain error naming the illegal source state and leaves nothing
silently unchanged, and every legal transition sets the target status,
the corresponding timestamp, and the `isActive` flag. -/
theorem C7_assignment_transitions (a : CoachTraineeAssignment) (now : Int)
    (reason actor : Option String) (treason : String) :
    (a.status = AssignmentStatus.active →
      CoachTraineeAssignment.pause now reason a =
        Except.ok
          { a with
            status := AssignmentStatus.paused,
            pausedAt := some now, isActive := false,
            notes := CoachTraineeAssignment.appendNote "PAUSED" reason a.notes }) ∧
    (a.status ≠ AssignmentStatus.active →
      CoachTraineeAssignment.pause now reason a =
        Except.error "Can only pause active assignments") ∧
    (a.status = AssignmentStatus.paused →
      CoachTraineeAssignment.resume now reason a =
        Except.ok
          { a with
            status := AssignmentStatus.active,
            resumedAt := some now, isActive := true,
            notes := CoachTraineeAssignment.appendNote "RESUMED" reason a.notes }) ∧
    (a.status ≠ AssignmentStatus.paused →
      CoachTraineeAssignment.resume now reason a =
        Except.error "Can only resume paused assignments") ∧
    (a.status = AssignmentStatus.active ∨ a.status = AssignmentStatus.paused →
      CoachTraineeAssignment.complete now reason actor a =
        Except.ok
          { a with
            status := AssignmentStatus.completed,
            endedAt := some now, isActive := false, terminatedBy := actor,
            terminationReason :=
              (match reason with
               | some r => some r
               | none => a.terminationReason),
            notes := CoachTraineeAssignment.appendNote "COMPLETED" reason a.notes }) ∧
    (a.status ≠ AssignmentStatus.active ∧ a.status ≠ AssignmentStatus.paused →
      CoachTraineeAssignment.complete now reason actor a =
        Except.error "Can only complete active or paused assignments") ∧
    (a.status ≠ AssignmentStatus.terminated →
      CoachTraineeAssignment.terminate now treason actor a =
        Except.ok
          { a with
            status := AssignmentStatus.terminated,
            endedAt := some now, isActive := false,
            terminationReason := some treason, terminatedBy := actor,
            notes := CoachTraineeAssignment.appendNote "TERMINATED" (some treason) a.notes }) ∧
    (a.status = AssignmentStatus.terminated →
      CoachTraineeAssignment.terminate now treason actor a =
        Except.error "Assignment is already terminated") := by
  cases h : a.status <;>
    simp [CoachTraineeAssignment.pause, CoachTraineeAssignment.resume,
      CoachTraineeAssignment.complete, CoachTraineeAssignment.terminate, h]

/-- C7 witness: the transitions evaluated on concrete assignments —
pausing a paused assignment, resuming an active one and terminating a
terminated one each fail with the domain error, while completing from
`active` and from `paused` both succeed with `isCompleted = true`. -/
theorem C7_witness :
    CoachTraineeAssignment.pause 5 none assignmentPaused =
      Except.error "Can only pause active assignments" ∧
    CoachTraineeAssignment.resume 5 none assignmentActive =
      Except.error "Can only resume paused assignments" ∧
    CoachTraineeAssignment.terminate 5 "done" none assignmentTerminated =
      Except.error "Assignment is already terminated" ∧
    (∃ b, CoachTraineeAssignment.complete 5 none none assignmentActive =
      Except.ok b ∧ b.isCompleted = true) ∧
    (∃ b, CoachTraineeAssignment.complete 5 none none assignmentPaused =
      Except.ok b ∧ b.isCompleted = true) :=
  ⟨(C7_assignment_transitions assignmentPaused 5 none none "x").2.1 (by decide),
   (C7_assignment_transitions assignmentActive 5 none none "x").2.2.2.1 (by decide),
   (C7_assignment_transitions assignmentTerminated 5 none none "done").2.2.2.2.2.2.2 (by decide),
   ⟨_, (C7_assignment_transitions assignmentActive 5 none none "x").2.2.2.2.1 (Or.inl rfl),
     by decide⟩,
   ⟨_, (C7_assignment_transitions assignmentPaused 5 none none "x").2.2.2.2.1 (Or.inr rfl),
     by decide⟩⟩

/-! ## C8 — validatePassword accumulates all violations -/

/-- Membership in one conditional singleton block of the accumulated
error list. -/
theorem mem_ite_singleton {m x : String} {c : Prop} [Decidable c] :
    (m ∈ (if c then [x] else [])) ↔ (c ∧ m = x) := by
  split <;> simp_all

/-- C8 (amended): for every nonempty password, each rule's message is in
the returned list exactly when that rule is violated — all violations
are reported together — and `isValid` holds exactly when the list is
empty.  (For the empty password the function short-circuits to the
single error `"Password is required"`; see the counterexample.) -/
theorem C8_validatePassword_accumulates (p : String) (hp : p ≠ "") :
    (PasswordService.msgTooShort ∈ (PasswordService.validatePassword p).errors ↔
      p.length < 8) ∧
    (PasswordService.msgTooLong ∈ (PasswordService.validatePassword p).errors ↔
      128 < p.length) ∧
    (PasswordService.msgNoUpper ∈ (PasswordService.validatePassword p).errors ↔
      p.toList.any PasswordService.isUppercaseChar = false) ∧
    (PasswordService.msgNoLower ∈ (PasswordService.validatePassword p).errors ↔
      p.toList.any PasswordService.isLowercaseChar = false) ∧
    (PasswordService.msgNoDigit ∈ (PasswordService.validatePassword p).errors ↔
      p.toList.any PasswordService.isDigitChar = false) ∧
    (PasswordService.msgNoSpecial ∈ (PasswordService.validatePassword p).errors ↔
      p.toList.any PasswordService.isSpecialChar = false) ∧
    (PasswordService.msgCommon ∈ (PasswordService.validatePassword p).errors ↔
      PasswordService.commonPasswords.contains (jsToLower p) = true) ∧
    (PasswordService.msgSequential ∈ (PasswordService.validatePassword p).errors ↔
      PasswordService.hasSequential p = true) ∧
    ((PasswordService.validatePassword p).isValid = true ↔
      (PasswordService.validatePassword p).errors = []) := by
  simp +decide [PasswordService.validatePassword, hp, mem_ite_singleton,
    List.mem_append, Bool.not_eq_true']

/-- C8 witness: `"short"` violates several rules at once and every one of
them is reported — the too-short error and the missing
uppercase/digit/special-character errors are all present together. -/
theorem C8_witness :
    PasswordService.msgTooShort ∈
      (PasswordService.validatePassword "short").errors ∧
    PasswordService.msgNoUpper ∈
      (PasswordService.validatePassword "short").errors ∧
    PasswordService.msgNoDigit ∈
      (PasswordService.validatePassword "short").errors ∧
    PasswordService.msgNoSpecial ∈
      (PasswordService.validatePassword "short").errors ∧
    (PasswordService.validatePassword "short").isValid = false :=
  ⟨(C8_validatePassword_accumulates "short" (by decide)).1.mpr (by decide),
   (C8_validatePassword_accumulates "short" (by decide)).2.2.1.mpr (by decide),
   (C8_validatePassword_accumulates "short" (by decide)).2.2.2.2.1.mpr (by decide),
   (C8_validatePassword_accumulates "short" (by decide)).2.2.2.2.2.1.mpr (by decide),
   by decide⟩

/-- C8 counterexample: for the empty password the code short-circuits to
the single `"Password is required"` error, so the violated length rule
is not reported — the claim's "complete accumulated list of all violated
rules" fails for this input. -/
theorem C8_counterexample :
    (PasswordService.validatePassword "").errors = [PasswordService.msgRequired] ∧
    PasswordService.msgTooShort ∉ (PasswordService.validatePassword "").errors ∧
    "".length < 8 := by decide

/-! ## C9 — generateRandomPassword -/

theorem String_mk_length (l : List Char) : (String.mk l).length = l.length := rfl

theorem String_mk_toList (l : List Char) : (String.mk l).toList = l := rfl

/-- A `getD` at a mod-reduced index picks an element of the list. -/
theorem getD_mod_mem (l : List Char) (i : Nat) (d : Char) (h : 0 < l.length) :
    l.getD (i % l.length) d ∈ l := by
  have hlt : i % l.length < l.length := Nat.mod_lt _ h
  rw [List.getD_eq_getElem l d hlt]
  exact List.getElem_mem hlt

/-- C9 (amended): for every requested length of at least 4 — below that
the four mandatory class picks already overshoot the request — and for
every random draw and every shuffle outcome (a permutation), the
generated password has exactly the requested length and contains at
least one lowercase letter, one uppercase letter, one digit and one
symbol.  (`validateStrength` is not guaranteed: the counterexample's
4-character output fails it.) -/
theorem C9_generateRandomPassword (length : Nat) (pick : Nat → Nat)
    (shuffle : List Char → List Char)
    (hshuffle : ∀ l, List.Perm (shuffle l) l) (hlen : 4 ≤ length) :
    (PasswordService.generateRandomPassword length pick shuffle).length = length ∧
    (∃ c ∈ (PasswordService.generateRandomPassword length pick shuffle).toList,
      c ∈ PasswordService.lowercaseChars) ∧
    (∃ c ∈ (PasswordService.generateRandomPassword length pick shuffle).toList,
      c ∈ PasswordService.uppercaseChars) ∧
    (∃ c ∈ (PasswordService.generateRandomPassword length pick shuffle).toList,
      c ∈ PasswordService.numberChars) ∧
    (∃ c ∈ (PasswordService.generateRandomPassword length pick shuffle).toList,
      c ∈ PasswordService.symbolChars) := by
  simp only [PasswordService.generateRandomPassword, String_mk_length,
    String_mk_toList]
  refine ⟨?_, ?_, ?_, ?_, ?_⟩
  · rw [(hshuffle _).length_eq]
    simp only [List.length_append, List.length_map, List.length_range,
      List.length_cons, List.length_nil]
    omega
  · exact ⟨PasswordService.lowercaseChars.getD
        (pick 0 % PasswordService.lowercaseChars.length) 'a',
      (hshuffle _).mem_iff.mpr
        (List.mem_append_left _ (List.mem_cons_self _ _)),
      getD_mod_mem _ (pick 0) _ (by decide)⟩
  · exact ⟨PasswordService.uppercaseChars.getD
        (pick 1 % PasswordService.uppercaseChars.length) 'A',
      (hshuffle _).mem_iff.mpr
        (List.mem_append_left _
          (List.mem_cons_of_mem _ (List.mem_cons_self _ _))),
      getD_mod_mem _ (pick 1) _ (by decide)⟩
  · exact ⟨PasswordService.numberChars.getD
        (pick 2 % PasswordService.numberChars.length) '0',
      (hshuffle _).mem_iff.mpr
        (List.mem_append_left _
          (List.mem_cons_of_mem _
            (List.mem_cons_of_mem _ (List.mem_cons_self _ _)))),
      getD_mod_mem _ (pick 2) _ (by decide)⟩
  · exact ⟨PasswordService.symbolChars.getD
        (pick 3 % PasswordService.symbolChars.length) '!',
      (hshuffle _).mem_iff.mpr
        (List.mem_append_left _
          (List.mem_cons_of_mem _
            (List.mem_cons_of_mem _
              (List.mem_cons_of_mem _ (List.mem_cons_self _ _))))),
      getD_mod_mem _ (pick 3) _ (by decide)⟩

/-- C9 witness: the default length 16 with a concrete draw and the
identity shuffle outcome. -/
theorem C9_witness :
    (PasswordService.generateRandomPassword 16 (fun _ => 0) id).length = 16 ∧
    (∃ c ∈ (PasswordService.generateRandomPassword 16 (fun _ => 0) id).toList,
      c ∈ PasswordService.lowercaseChars) ∧
    (∃ c ∈ (PasswordService.generateRandomPassword 16 (fun _ => 0) id).toList,
      c ∈ PasswordService.uppercaseChars) ∧
    (∃ c ∈ (PasswordService.generateRandomPassword 16 (fun _ => 0) id).toList,
      c ∈ PasswordService.numberChars) ∧
    (∃ c ∈ (PasswordService.generateRandomPassword 16 (fun _ => 0) id).toList,
      c ∈ PasswordService.symbolChars) :=
  C9_generateRandomPassword 16 (fun _ => 0) id (fun l => List.Perm.refl l)
    (by decide)

/-- C9 counterexample: for requested length 2 the four mandatory picks
are still appended, so the output has length 4, not 2 — and that output
also fails `validatePassword` — refuting the claim's "for every
requested length". -/
theorem C9_counterexample :
    PasswordService.generateRandomPassword 2 (fun _ => 0) id = "aA0!" ∧
    (PasswordService.generateRandomPassword 2 (fun _ => 0) id).length = 4 ∧
    (PasswordService.validatePassword
      (PasswordService.generateRandomPassword 2 (fun _ => 0) id)).isValid = false := by
  decide

/-! ## C10 — access-token lifetime in seconds -/

theorem String_toList_append (s t : String) :
    (s ++ t).toList = s.toList ++ t.toList := rfl

theorem String_mk_toList_self (s : String) : String.mk s.toList = s := rfl

/-- C10 (amended): for every expiry string with an `h`/`m`/`d`/`s` suffix
whose numeric prefix parses, the corresponding number of seconds is
returned (e.g. `"2h"` yields 7200); but for an unsuffixed value the
result is exactly what `parseInt` yields — `NaN` (modelled as `none`)
when unparseable, never the 3600 default, which is reachable only for a
non-string configuration value and the configured value is always a
string. -/
theorem C10_getAccessTokenExpirationTime (body s : String) (n : Int) :
    (JWTService.parseIntJS body = some n →
      JWTService.getAccessTokenExpirationTime (body ++ "h") = some (n * 3600) ∧
      JWTService.getAccessTokenExpirationTime (body ++ "m") = some (n * 60) ∧
      JWTService.getAccessTokenExpirationTime (body ++ "d") = some (n * 86400) ∧
      JWTService.getAccessTokenExpirationTime (body ++ "s") = some n) ∧
    (JWTService.strEndsWithChar s 'h' = false →
      JWTService.strEndsWithChar s 'm' = false →
      JWTService.strEndsWithChar s 'd' = false →
      JWTService.strEndsWithChar s 's' = false →
      JWTService.getAccessTokenExpirationTime s = JWTService.parseIntJS s) := by
  constructor
  · intro hb
    refine ⟨?_, ?_, ?_, ?_⟩ <;>
      simp [JWTService.getAccessTokenExpirationTime, JWTService.strEndsWithChar,
        JWTService.strDropLast, String_toList_append, List.getLast?_concat,
        List.dropLast_concat, String_mk_toList_self, hb]
  · intro h1 h2 h3 h4
    simp [JWTService.getAccessTokenExpirationTime, h1, h2, h3, h4]

/-- C10 witness: `"2h"` yields 7200 seconds, `"30m"` yields 1800, and the
unsuffixed unparseable `"abc"` falls through to `parseInt`. -/
theorem C10_witness :
    JWTService.getAccessTokenExpirationTime "2h" = some 7200 ∧
    JWTService.getAccessTokenExpirationTime "30m" = some 1800 ∧
    JWTService.getAccessTokenExpirationTime "abc" = JWTService.parseIntJS "abc" :=
  ⟨by simpa using ((C10_getAccessTokenExpirationTime "2" "x" 2).1 (by decide)).1,
   by simpa using ((C10_getAccessTokenExpirationTime "30" "x" 30).1 (by decide)).2.1,
   (C10_getAccessTokenExpirationTime "x" "abc" 0).2 (by decide) (by decide)
     (by decide) (by decide)⟩

/-- C10 counterexample: the claim promises the default 3600 for an
unparseable configured value, but `"abc"` produces `parseInt("abc")`,
i.e. `NaN` (modelled `none`), not 3600 — the `return 3600` branch is
only reachable for a non-string configuration value. -/
theorem C10_counterexample :
    JWTService.getAccessTokenExpirationTime "abc" = none ∧
    JWTService.getAccessTokenExpirationTime "abc" ≠ some 3600 := by decide

/-! ## C1 — refreshToken failure messages -/

/-- C1 counterexample: a refresh token with a bad signature makes
`verifyRefreshToken` throw, which the surrounding `catch` turns into
`"Token refresh failed"` — not the claimed
`"Invalid or expired refresh token"`. -/
theorem C1_counterexample :
    badSigTok.sigOk = false ∧
    AuthService.refreshToken "1h" badSigTok 0 dbEmpty =
      { success := false, message := "Token refresh failed",
        user := none, tokens := none } ∧
    "Token refresh failed" ≠ "Invalid or expired refresh token" := by decide

/-- C1 (amended): when `verifyRefreshToken` rejects the token (bad
signature, expired, wrong discriminator, or missing claims) the caught
throw yields `success = false` with `"Token refresh failed"`; the
generic `"Invalid or expired refresh token"` is returned exactly for
verified tokens whose user or session lookup fails (missing or
inactive) or whose session can no longer refresh. -/
theorem C1_refreshToken_failures (cfg : String) (tok : RefreshTok) (now : Int)
    (db : DB) :
    (∀ e, JWTService.verifyRefreshToken tok = Except.error e →
      AuthService.refreshToken cfg tok now db =
        { success := false, message := "Token refresh failed",
          user := none, tokens := none }) ∧
    (∀ uid sid, JWTService.verifyRefreshToken tok = Except.ok (uid, sid) →
      (db.users.find? (fun u => u.id == uid && u.isActive) = none ∨
       db.sessions.find?
         (fun s => s.id == sid && s.userId == uid && s.isActive) = none ∨
       (∃ s, db.sessions.find?
          (fun p => p.id == sid && p.userId == uid && p.isActive) = some s ∧
         Session.canRefresh now s = false)) →
      AuthService.refreshToken cfg tok now db =
        { success := false, message := "Invalid or expired refresh token",
          user := none, tokens := none }) := by
  constructor
  · intro e he
    simp [AuthService.refreshToken, he]
  · intro uid sid hok hbad
    rcases hbad with h | h | ⟨s, hs, hcr⟩
    · cases hfind : db.sessions.find?
        (fun s => s.id == sid && s.userId == uid && s.isActive) with
      | none => simp [AuthService.refreshToken, hok, h, hfind]
      | some s => simp [AuthService.refreshToken, hok, h, hfind]
    · cases hu : db.users.find? (fun u => u.id == uid && u.isActive) with
      | none => simp [AuthService.refreshToken, hok, h, hu]
      | some u => simp [AuthService.refreshToken, hok, h, hu]
    · cases hu : db.users.find? (fun u => u.id == uid && u.isActive) with
      | none => simp [AuthService.refreshToken, hok, hs, hu]
      | some u => simp [AuthService.refreshToken, hok, hs, hu, hcr]

/-- C1 witness: the wrong-discriminator token yields
`"Token refresh failed"`, while a well-formed token whose session is
past its refresh expiry yields `"Invalid or expired refresh token"`. -/
theorem C1_witness :
    AuthService.refreshToken "1h" wrongTypTok 0 dbRefresh =
      { success := false, message := "Token refresh failed",
        user := none, tokens := none } ∧
    AuthService.refreshToken "1h" goodTok 100 dbRefresh =
      { success := false, message := "Invalid or expired refresh token",
        user := none, tokens := none } :=
  ⟨(C1_refreshToken_failures "1h" wrongTypTok 0 dbRefresh).1
      JWTService.errInvalidRefresh (by rfl),
   (C1_refreshToken_failures "1h" goodTok 100 dbRefresh).2 "u1" "s1" (by rfl)
      (Or.inr (Or.inr ⟨staleSession, by decide, by decide⟩))⟩

/-! ## C2 — resetPassword -/

/-- A password that passes strength validation is nonempty. -/
theorem validatePassword_isValid_ne_empty (p : String)
    (h : (PasswordService.validatePassword p).isValid = true) : p ≠ "" := by
  intro he
  subst he
  simp [PasswordService.validatePassword] at h

/-- C2 counterexample: with two users holding non-expired reset tokens,
the query (which filters only on expiry) returns the first user, so the
second user's perfectly valid token is rejected and nothing changes —
refuting "this holds in every state". -/
theorem C2_counterexample :
    resetUserB ∈ dbTwoResets.users ∧
    resetUserB.passwordResetExpires = some 100 ∧ ((50 : Int) < 100) ∧
    resetUserB.passwordResetToken = some (bcryptHash (BVal.plain "tokB")) ∧
    bcryptCompare "tokB" (bcryptHash (BVal.plain "tokB")) = true ∧
    (PasswordService.validatePassword "Str0ng!Pass").isValid = true ∧
    (AuthService.resetPassword ⟨"tokB", "Str0ng!Pass"⟩ 50 dbTwoResets).1 =
      { success := false, message := "Invalid or expired reset token" } ∧
    (AuthService.resetPassword ⟨"tokB", "Str0ng!Pass"⟩ 50 dbTwoResets).2 =
      dbTwoResets := by decide

/-- C2 (amended): the reset succeeds when the supplied raw token matches
the stored hash of the user the expiry-only query finds — the first
user (in store order) with a non-expired reset expiry; in particular in
every state where exactly one user holds a non-expired reset token.
Then the password is rehashed to the new password, both reset-token
fields are cleared, and every active session of that user is revoked. -/
theorem C2_resetPassword_success (db : DB) (now : Int) (tok newPw : String)
    (u : User) (h : BVal)
    (hfind : db.users.find? (AuthService.resetExpiryMatches now) = some u)
    (htok : u.passwordResetToken = some h)
    (hcmp : bcryptCompare tok h = true)
    (hv : (PasswordService.validatePassword newPw).isValid = true) :
    (AuthService.resetPassword ⟨tok, newPw⟩ now db).1 =
      { success := true, message := "Password reset successfully" } ∧
    (∃ u', u' ∈ (AuthService.resetPassword ⟨tok, newPw⟩ now db).2.users ∧
      u'.id = u.id ∧ u'.password = bcryptHash (BVal.plain newPw) ∧
      u'.passwordResetToken = none ∧ u'.passwordResetExpires = none) ∧
    (∀ s ∈ (AuthService.resetPassword ⟨tok, newPw⟩ now db).2.sessions,
      s.userId = u.id → s.isActive = false) ∧
    (∀ s ∈ db.sessions, s.userId = u.id → s.isActive = true →
      ({ s with
         isActive := false, revokedAt := some now,
         revokedReason := some "Password reset",
         revokedBy := some "user" } : Session) ∈
        (AuthService.resetPassword ⟨tok, newPw⟩ now db).2.sessions) := by
  have hne : newPw ≠ "" := validatePassword_isValid_ne_empty newPw hv
  have heq : AuthService.resetPassword ⟨tok, newPw⟩ now db =
      ({ success := true, message := "Password reset successfully" },
       { users := db.users.map (fun x =>
           if x.id == u.id then
             User.beforeSave
               { u with
                 password := BVal.plain newPw,
                 passwordResetToken := none, passwordResetExpires := none }
           else x),
         sessions := db.sessions.map (fun s =>
           if s.userId == u.id && s.isActive then
             { s with
               isActive := false, revokedAt := some now,
               revokedReason := some "Password reset",
               revokedBy := some "user" }
           else s) }) := by
    simp [AuthService.resetPassword, hv, hfind, htok, hcmp]
  refine ⟨by rw [heq], ?_, ?_, ?_⟩
  · refine ⟨User.beforeSave
      { u with
        password := BVal.plain newPw,
        passwordResetToken := none, passwordResetExpires := none }, ?_, ?_⟩
    · rw [heq]
      exact List.mem_map.mpr
        ⟨u, List.mem_of_find?_eq_some hfind, by simp⟩
    · simp [User.beforeSave, User.hashPassword, User.applyNormalizeEmail,
        BVal.isTruthy, hne, bcryptHash]
      split <;> simp
  · intro s hs hsu
    rw [heq] at hs
    rcases List.mem_map.mp hs with ⟨s₀, hs₀, rfl⟩
    by_cases hc : (s₀.userId == u.id && s₀.isActive) = true
    · simp [hc]
    · rw [if_neg hc] at hsu ⊢
      have hcf : (s₀.userId == u.id && s₀.isActive) = false :=
        Bool.eq_false_iff.mpr hc
      simp [hsu] at hcf
      exact hcf
  · intro s hs hsu hsa
    rw [heq]
    have : (fun s : Session =>
        if s.userId == u.id && s.isActive then
          { s with
            isActive := false, revokedAt := some now,
            revokedReason := some "Password reset",
            revokedBy := some "user" }
        else s) s =
        { s with
          isActive := false, revokedAt := some now,
          revokedReason := some "Password reset",
          revokedBy := some "user" } := by
      simp [hsu, hsa]
    exact this ▸ List.mem_map_of_mem _ hs

/-- C2 witness: in a state where exactly one user holds a non-expired
reset token, resetting with that user's raw token and a strong password
succeeds, rehashes, clears the token fields, and revokes the user's
active session. -/
theorem C2_witness :
    (AuthService.resetPassword ⟨"tokC", "Str0ng!Pass"⟩ 50 dbOneReset).1 =
      { success := true, message := "Password reset successfully" } ∧
    (∃ u', u' ∈ (AuthService.resetPassword ⟨"tokC", "Str0ng!Pass"⟩ 50 dbOneReset).2.users ∧
      u'.id = resetUserC.id ∧ u'.password = bcryptHash (BVal.plain "Str0ng!Pass") ∧
      u'.passwordResetToken = none ∧ u'.passwordResetExpires = none) ∧
    (∀ s ∈ (AuthService.resetPassword ⟨"tokC", "Str0ng!Pass"⟩ 50 dbOneReset).2.sessions,
      s.userId = resetUserC.id → s.isActive = false) ∧
    (∀ s ∈ dbOneReset.sessions, s.userId = resetUserC.id → s.isActive = true →
      ({ s with
         isActive := false, revokedAt := some 50,
         revokedReason := some "Password reset",
         revokedBy := some "user" } : Session) ∈
        (AuthService.resetPassword ⟨"tokC", "Str0ng!Pass"⟩ 50 dbOneReset).2.sessions) :=
  C2_resetPassword_success dbOneReset 50 "tokC" "Str0ng!Pass" resetUserC
    (bcryptHash (BVal.plain "tokC")) (by decide) (by decide) (by decide) (by decide)

/-! ## C3 — register duplicate handling -/

/-- C3 counterexample: the requested email collides with an existing
user, but a different user colliding on the username is found first (the
OR-lookup returns the first match in store order), so the message is
`"Username already taken"` — the claimed email precedence fails. -/
theorem C3_counterexample :
    userEmailCollider ∈ dbCollide.users ∧
    userEmailCollider.email = normalizeEmail regReqCollide.email ∧
    (AuthService.register "1h" regReqCollide 0 fresh0 dbCollide).1.success = false ∧
    (AuthService.register "1h" regReqCollide 0 fresh0 dbCollide).1.message =
      "Username already taken" ∧
    (AuthService.register "1h" regReqCollide 0 fresh0 dbCollide).1.message ≠
      "Email already registered" := by decide

/-- C3 (amended): on any collision, registration fails and leaves the
store unchanged; the message is `"Email already registered"` exactly
when the first user matching the email-or-username disjunction carries
the normalized requested email, and `"Username already taken"`
otherwise — so the email message takes precedence within the matched
user, but not across distinct colliding users. -/
theorem C3_register_conflict (cfg : String) (data : RegisterRequest)
    (now : Int) (fr : Fresh) (db : DB) (u : User)
    (hfind : db.users.find?
      (fun x => x.email == normalizeEmail data.email ||
        x.username == data.username) = some u) :
    (AuthService.register cfg data now fr db).1.success = false ∧
    (AuthService.register cfg data now fr db).1.message =
      (if u.email = normalizeEmail data.email then "Email already registered"
       else "Username already taken") ∧
    (AuthService.register cfg data now fr db).1.user = none ∧
    (AuthService.register cfg data now fr db).1.tokens = none ∧
    (AuthService.register cfg data now fr db).2 = db := by
  simp only [AuthService.register, hfind]
  refine ⟨trivial, ?_, trivial, trivial, trivial⟩
  by_cases he : u.email = normalizeEmail data.email
  · simp [he]
  · simp [he]

/-- C3 witness: when one and the same user collides on both the email
and the username, the reported message is `"Email already registered"`. -/
theorem C3_witness :
    (AuthService.register "1h" regReqCollide 0 fresh0 dbBoth).1.success = false ∧
    (AuthService.register "1h" regReqCollide 0 fresh0 dbBoth).1.message =
      (if userBothCollider.email = normalizeEmail regReqCollide.email
       then "Email already registered" else "Username already taken") ∧
    (AuthService.register "1h" regReqCollide 0 fresh0 dbBoth).1.user = none ∧
    (AuthService.register "1h" regReqCollide 0 fresh0 dbBoth).1.tokens = none ∧
    (AuthService.register "1h" regReqCollide 0 fresh0 dbBoth).2 = dbBoth :=
  C3_register_conflict "1h" regReqCollide 0 fresh0 dbBoth userBothCollider
    (by decide)

/-! ## C4 — login must not alter the credential -/

/-- C4: registering and then logging in twice with the same correct
password.  The first login succeeds, but its save runs the
`@BeforeUpdate hashPassword` hook whose `if (this.password)` guard is
true for the already-hashed stored value, so the credential is rehashed
to `hash(hash(p))` and the second login fails with
`"Invalid email or password"` — the claim that login leaves the
credential verifiable is violated by the code. -/
theorem C4_login_rehash_bug :
    regStep.1.success = true ∧
    loginStep1.1.success = true ∧
    loginStep1.1.message = "Login successful" ∧
    loginStep2.1 = AuthService.invalidCredentials ∧
    (∃ u ∈ loginStep1.2.users,
      u.email = "alice@example.com" ∧
      u.password = bcryptHash (bcryptHash (BVal.plain "Str0ng!Pass")) ∧
      User.validatePassword "Str0ng!Pass" u = false) := by decide

/-! ## C5 — login does not reveal account existence -/

/-- C5: an unknown-email login and a wrong-password login on an existing
account evaluated in the same state return identical responses —
`success = false`, message `"Invalid email or password"`, no user, no
tokens. -/
theorem C5_login_no_enumeration (cfg : String) (db : DB) (now₁ now₂ : Int)
    (fr₁ fr₂ : Fresh) (e₁ p₁ e₂ p₂ : String) (r₁ r₂ : Bool) (u : User)
    (h₁ : db.users.find? (fun x => x.email == normalizeEmail e₁) = none)
    (h₂ : db.users.find? (fun x => x.email == normalizeEmail e₂) = some u)
    (hw : User.validatePassword p₂ u = false) :
    (AuthService.login cfg ⟨e₁, p₁, r₁⟩ now₁ fr₁ db).1 =
      (AuthService.login cfg ⟨e₂, p₂, r₂⟩ now₂ fr₂ db).1 ∧
    (AuthService.login cfg ⟨e₁, p₁, r₁⟩ now₁ fr₁ db).1 =
      AuthService.invalidCredentials := by
  have hA : (AuthService.login cfg ⟨e₁, p₁, r₁⟩ now₁ fr₁ db).1 =
      AuthService.invalidCredentials := by
    simp [AuthService.login, h₁]
  have hB : (AuthService.login cfg ⟨e₂, p₂, r₂⟩ now₂ fr₂ db).1 =
      AuthService.invalidCredentials := by
    by_cases hact : u.isActive
    · simp [AuthService.login, h₂, hact, hw]
    · simp [AuthService.login, h₂, hact]
  exact ⟨hA.trans hB.symm, hA⟩

/-- C5 witness: unknown `nosuch@example.com` versus the existing
`u1@example.com` with a wrong password, in the same state. -/
theorem C5_witness :
    (AuthService.login "1h" ⟨"nosuch@example.com", "Whatever1!", false⟩ 0
      fresh0 dbRefresh).1 =
      (AuthService.login "1h" ⟨"u1@example.com", "WrongPass1!", false⟩ 0
        fresh0 dbRefresh).1 ∧
    (AuthService.login "1h" ⟨"nosuch@example.com", "Whatever1!", false⟩ 0
      fresh0 dbRefresh).1 = AuthService.invalidCredentials :=
  C5_login_no_enumeration "1h" dbRefresh 0 0 fresh0 fresh0
    "nosuch@example.com" "Whatever1!" "u1@example.com" "WrongPass1!"
    false false refreshUser (by decide) (by decide) (by decide)
